import Mathlib

/-!
Verification of the AI-Music client applications (mobile and web) against
their specification.  The development shallowly embeds the state-bearing
parts of the source:

* `ApiService` — the typed HTTP wrapper (`src/unnamed/part_001`, second
  document): error normalisation (`handleError`) and `results`-envelope
  unwrapping in the list-returning methods.  Response bodies are modelled
  as a small JSON value type with JavaScript truthiness, so that the
  source's `a || b` chains are reproduced exactly.
* `AuthContext` — the mobile session manager
  (`src/mobile/src/context/AuthContext.tsx`): `login`, `logout`,
  `loadStoredAuth`.  The remote endpoints are oracles passed as explicit
  arguments (`Except String` results); session state is the triple of
  in-memory token, in-memory user and persisted token.
* `Auth` — the web session manager (`src/frontend/src/components/Auth.tsx`):
  `logout` and the profile-restoring effect.
* `AudioContext` — the mobile playback controller (`src/unnamed/part_001`,
  first document): `setPlaylist`, `toggleShuffle`, `toggleRepeat`.  The
  device player (`TrackPlayer`) queue is part of the modelled state and
  player-call failures are explicit outcome arguments, mirroring the
  source's `try`/`catch` blocks.
* `HomeScreen` — the like-button handler (`src/unnamed/part_000`).
-/

/-- JSON values as delivered by axios (`response.data`), plus `undefined`
so that absent-field access (`data?.field`) is a value the JS `||`
operator can test. -/
inductive Json where
  | jUndef : Json
  | jNull : Json
  | jBool : Bool → Json
  | jNum : Int → Json
  | jStr : String → Json
  | jArr : List Json → Json
  | jObj : List (String × Json) → Json
deriving Repr

namespace Json

/-- JavaScript truthiness: `undefined`, `null`, `false`, `0` and `""` are
falsy; every array and object (empty ones included) is truthy. -/
def truthy : Json → Bool
  | jUndef => false
  | jNull => false
  | jBool b => b
  | jNum n => n != 0
  | jStr s => s != ""
  | jArr _ => true
  | jObj _ => true

/-- Field lookup on a list of key/value pairs: first binding wins. -/
def lookupField : List (String × Json) → String → Json
  | [], _ => jUndef
  | (k, v) :: rest, key => if k == key then v else lookupField rest key

/-- `data?.key`: an object yields its field (or `undefined`); any other
value yields `undefined`. -/
def getFieldD : Json → String → Json
  | jObj fs, key => lookupField fs key
  | _, _ => jUndef

/-- The JavaScript `a || b`. -/
def jsOr (a b : Json) : Json := if truthy a then a else b

end Json

namespace ApiService

open Json

/-- The shape of an axios rejection: a response was received with a non-2xx
status (`error.response` set), or the request went out but no response
arrived (`error.request` set), or the request was never made. -/
inductive AxiosFailure where
  | responseErr (status : Nat) (data : Json)
  | requestErr
  | setupErr (message : String)
deriving Repr

/-- `handleError` from the API client, returning the message placed in the
thrown `Error`.  Source:

    if (error.response) {
      const message = error.response.data?.detail ||
                     error.response.data?.message ||
                     error.response.data?.error ||
                     'An error occurred';
      return new Error(message);
    } else if (error.request) {
      return new Error('Network error - please check your connection');
    } else {
      return new Error(error.message || 'An unexpected error occurred');
    }
-/
def handleError : AxiosFailure → Json
  | .responseErr _ data =>
      jsOr (data.getFieldD "detail")
        (jsOr (data.getFieldD "message")
          (jsOr (data.getFieldD "error") (jStr "An error occurred")))
  | .requestErr => jStr "Network error - please check your connection"
  | .setupErr msg =>
      if msg != "" then jStr msg else jStr "An unexpected error occurred"

/-- `response.data.results || response.data` — the envelope unwrapping
shared by the list-returning methods. -/
def unwrapResults (data : Json) : Json :=
  jsOr (data.getFieldD "results") data

/-- `getCompositions`: on success unwraps a `results` envelope, on failure
throws `handleError`'s message. -/
def getCompositions (resp : Except AxiosFailure Json) : Except Json Json :=
  match resp with
  | .ok data => .ok (unwrapResults data)
  | .error e => .error (handleError e)

/-- `getTrendingTracks`: same success shape as `getCompositions`. -/
def getTrendingTracks (resp : Except AxiosFailure Json) : Except Json Json :=
  match resp with
  | .ok data => .ok (unwrapResults data)
  | .error e => .error (handleError e)

/-- `getModelRecommendations`: declared `Promise<any[]>` but returns
`response.data` directly, with no envelope unwrapping. -/
def getModelRecommendations (resp : Except AxiosFailure Json) :
    Except Json Json :=
  match resp with
  | .ok data => .ok data
  | .error e => .error (handleError e)

end ApiService

/-- The body of a successful `/auth/api/profile/` response.  The client is
dynamically typed (`getUserProfile` returns `Promise<any>`), so the fields
the session managers read are modelled as optional: a field may be absent
from the body, as the web restore path (`response.data.id || 0`)
explicitly anticipates. -/
structure UserProfile where
  id : Option Nat
  username : Option String
  email : Option String
deriving Repr, DecidableEq

/-- The in-memory `user` object held by a session manager.  JavaScript
objects may lack any of these keys, hence every field is optional. -/
structure User where
  id : Option Nat
  username : Option String
  email : Option String
deriving Repr, DecidableEq

/-- The body of a successful `/auth/api/login/` response:
`{ token, user_id, username }`. -/
structure LoginResp where
  token : String
  user_id : Nat
  username : String
deriving Repr, DecidableEq

/-- Session state of a client: in-memory `token` and `user` (React state),
and the token persisted in AsyncStorage/localStorage under `auth_token`. -/
structure SessionState where
  token : Option String
  user : Option User
  stored : Option String
deriving Repr, DecidableEq

/-- `isAuthenticated: !!token && !!user` — shared by both session
managers. -/
def SessionState.isAuthenticated (st : SessionState) : Bool :=
  st.token.isSome && st.user.isSome

namespace AuthContext

/-- The object spread in the mobile `login`/`register`:
`{ id: user_id, username: returnedUsername, ...userProfile }`.  A key
present in `userProfile` overrides the explicitly written one. -/
def mergeUser (user_id : Nat) (uname : String) (p : UserProfile) : User :=
  { id := some (p.id.getD user_id),
    username := some (p.username.getD uname),
    email := p.email }

/-- `setUser(userProfile)` in `loadStoredAuth`: the raw profile body is
stored as the user object. -/
def profileToUser (p : UserProfile) : User :=
  { id := p.id, username := p.username, email := p.email }

/-- Mobile `login`.  The login endpoint and the profile endpoint are
oracles (`loginRes`, `profileFor`); a thrown `Error`'s message is the
`.error` payload.  Source order matters: `setToken` and
`AsyncStorage.setItem` run before the profile fetch, and the `catch`
rethrows `new Error(error.message || 'Login failed')`. -/
def login (st : SessionState) (loginRes : Except String LoginResp)
    (profileFor : String → Except String UserProfile) :
    SessionState × Except String Unit :=
  match loginRes with
  | .error msg => (st, .error (if msg = "" then "Login failed" else msg))
  | .ok r =>
      let st1 : SessionState :=
        { st with token := some r.token, stored := some r.token }
      match profileFor r.token with
      | .error msg => (st1, .error (if msg = "" then "Login failed" else msg))
      | .ok p =>
          ({ st1 with user := some (mergeUser r.user_id r.username p) },
           .ok ())

/-- Mobile `logout`: best-effort remote invalidation (`ApiService.logout`
itself swallows errors, and the surrounding `catch` ignores any others),
then the `finally` block clears user, token and the persisted token.  The
call never surfaces an error (second component). -/
def logout (_st : SessionState) (_remoteOk : Bool) :
    SessionState × Option String :=
  ({ token := none, user := none, stored := none }, none)

/-- Mobile `loadStoredAuth` (session restoration).  If a token is stored,
`setToken(storedToken)` runs first; then the profile fetch either succeeds
(`setUser(userProfile)`) or throws, in which case the `catch` removes only
the persisted token (`AsyncStorage.removeItem('auth_token')`). -/
def loadStoredAuth (st : SessionState)
    (profileFor : String → Except String UserProfile) : SessionState :=
  match st.stored with
  | none => st
  | some t =>
      match profileFor t with
      | .ok p => { st with token := some t, user := some (profileToUser p) }
      | .error _ => { st with token := some t, stored := none }

end AuthContext

namespace Auth

/-- `response.data.id || 0` in the web restore path. -/
def jsNumOr (o : Option Nat) (d : Nat) : Nat :=
  match o with
  | some n => if n = 0 then d else n
  | none => d

/-- `response.data.username || ''` (and likewise for `email`). -/
def jsStrOr (o : Option String) (d : String) : String :=
  match o with
  | some s => if s = "" then d else s
  | none => d

/-- Web `logout`: fires the invalidation request without awaiting it
(errors caught and ignored), then synchronously clears user, token and
localStorage. -/
def logout (_st : SessionState) : SessionState :=
  { token := none, user := none, stored := none }

/-- The web `useEffect` restoring a user from a persisted token: when a
token is present and no user is loaded, fetch the profile; on success
build the user with `|| 0` / `|| ''` defaults; on failure call
`logout()`. -/
def restoreEffect (st : SessionState)
    (profileFor : String → Except String UserProfile) : SessionState :=
  match st.token, st.user with
  | some t, none =>
      match profileFor t with
      | .ok p =>
          { st with user := some ({
              id := some (jsNumOr p.id 0),
              username := some (jsStrOr p.username ""),
              email := some (jsStrOr p.email "") } : User) }
      | .error _ => logout st
  | _, _ => st

end Auth

/-- A track as queued on the device player (the fields `HomeScreen` builds
when starting playback). -/
structure Track where
  id : String
  url : String
  title : String
  artist : String
  duration : Nat
deriving Repr, DecidableEq

/-- `react-native-track-player`'s repeat modes. -/
inductive RepeatMode where
  | off : RepeatMode
  | track : RepeatMode
  | queue : RepeatMode
deriving Repr, DecidableEq

namespace AudioContext

/-- The playback state exposed by `AudioProvider` (React state) together
with the device player's queue, which `reset`/`add` mutate. -/
structure AudioState where
  currentTrack : Option Track
  isPlaying : Bool
  playlist : List Track
  shuffle : Bool
  repeatMode : RepeatMode
  playerQueue : List Track
deriving Repr, DecidableEq

/-- Where the `try` block of `setPlaylist` can fail: `TrackPlayer.reset()`
throws (nothing yet changed), `TrackPlayer.add(tracks)` throws (the queue
was already emptied), or everything succeeds. -/
inductive PlaylistOutcome where
  | ok : PlaylistOutcome
  | failReset : PlaylistOutcome
  | failAdd : PlaylistOutcome
deriving Repr, DecidableEq

/-- `setPlaylist(tracks)`: reset the player, add the tracks, set the
`playlist` state, and set `currentTrack` to `tracks[0]` only when the
list is non-empty.  Errors are caught and logged, leaving the remaining
state untouched. -/
def setPlaylist (st : AudioState) (tracks : List Track) :
    PlaylistOutcome → AudioState
  | .failReset => st
  | .failAdd => { st with playerQueue := [] }
  | .ok =>
      { st with
        playerQueue := tracks,
        playlist := tracks,
        currentTrack :=
          match tracks with
          | [] => st.currentTrack
          | t :: _ => some t }

/-- `toggleShuffle`: flips the `shuffle` flag.  The `try` block contains
no player call (the source notes the player has no built-in shuffle), so
nothing can fail and nothing else is touched. -/
def toggleShuffle (st : AudioState) : AudioState :=
  { st with shuffle := !st.shuffle }

/-- The `switch` in `toggleRepeat` choosing the next mode. -/
def nextRepeatMode : RepeatMode → RepeatMode
  | .off => .track
  | .track => .queue
  | .queue => .off

/-- `toggleRepeat`: computes the next mode, calls
`TrackPlayer.setRepeatMode` (which may throw, in which case the caught
error leaves the state unchanged), then stores the new mode. -/
def toggleRepeat (st : AudioState) (playerOk : Bool) : AudioState :=
  if playerOk then { st with repeatMode := nextRepeatMode st.repeatMode }
  else st

end AudioContext

namespace HomeScreen

/-- A composition as held in the `HomeScreen` list state. -/
structure Composition where
  id : Nat
  title : String
  username : String
  duration : Nat
  like_count : Nat
  play_count : Nat
deriving Repr, DecidableEq

/-- `handleLikeComposition(compositionId)`: without a token it alerts and
returns; otherwise it awaits `ApiService.likeComposition` and only on
success maps the composition list, bumping `like_count` on entries whose
`id` matches and keeping every other entry as is.  On failure the list is
untouched. -/
def handleLikeComposition (comps : List Composition) (compositionId : Nat)
    (tokenPresent : Bool) (apiOk : Bool) : List Composition :=
  if !tokenPresent then comps
  else if apiOk then
    comps.map (fun comp =>
      if comp.id == compositionId then
        { comp with like_count := comp.like_count + 1 }
      else comp)
  else comps

end HomeScreen

/-- C2: for every starting session state, `logout` (mobile and web) leaves
`authenticated = false` with user, in-memory token and persisted token all
cleared, whether or not the remote invalidation succeeds, and surfaces no
error to the caller. -/
theorem C2_logout_always_clears (st st2 : SessionState) (remoteOk : Bool) :
    (AuthContext.logout st remoteOk).1.isAuthenticated = false ∧
    (AuthContext.logout st remoteOk).1.token = none ∧
    (AuthContext.logout st remoteOk).1.user = none ∧
    (AuthContext.logout st remoteOk).1.stored = none ∧
    (AuthContext.logout st remoteOk).2 = none ∧
    (Auth.logout st2).token = none ∧
    (Auth.logout st2).user = none ∧
    (Auth.logout st2).stored = none :=
  ⟨rfl, rfl, rfl, rfl, rfl, rfl, rfl, rfl⟩

/-- C5: on a non-2xx response `handleError`'s message comes from the body's
`detail`, `message`, `error` fields in that priority order, falling back to
the generic message; when no response was received at all the result is the
fixed network-error message, produced without consulting any body and
different from the generic fallback. -/
theorem C5_handleError_priority (status : Nat) (data : Json) :
    (Json.truthy (data.getFieldD "detail") = true →
      ApiService.handleError (.responseErr status data) =
        data.getFieldD "detail") ∧
    (Json.truthy (data.getFieldD "detail") = false →
      Json.truthy (data.getFieldD "message") = true →
      ApiService.handleError (.responseErr status data) =
        data.getFieldD "message") ∧
    (Json.truthy (data.getFieldD "detail") = false →
      Json.truthy (data.getFieldD "message") = false →
      Json.truthy (data.getFieldD "error") = true →
      ApiService.handleError (.responseErr status data) =
        data.getFieldD "error") ∧
    (Json.truthy (data.getFieldD "detail") = false →
      Json.truthy (data.getFieldD "message") = false →
      Json.truthy (data.getFieldD "error") = false →
      ApiService.handleError (.responseErr status data) =
        Json.jStr "An error occurred") ∧
    ApiService.handleError .requestErr =
      Json.jStr "Network error - please check your connection" ∧
    ApiService.handleError .requestErr ≠ Json.jStr "An error occurred" := by
  refine ⟨?_, ?_, ?_, ?_, rfl, by simp [ApiService.handleError]⟩
  · intro h1
    simp [ApiService.handleError, Json.jsOr, h1]
  · intro h1 h2
    simp [ApiService.handleError, Json.jsOr, h1, h2]
  · intro h1 h2 h3
    simp [ApiService.handleError, Json.jsOr, h1, h2, h3]
  · intro h1 h2 h3
    simp [ApiService.handleError, Json.jsOr, h1, h2, h3]

/-- Witness for C5 at a concrete body: with no `detail` field and a truthy
`message` field, the extracted message is the `message` field's value. -/
theorem C5_handleError_witness :
    Json.truthy ((Json.jObj [("message", Json.jStr "Invalid credentials.")]).getFieldD "detail") = false ∧
    Json.truthy ((Json.jObj [("message", Json.jStr "Invalid credentials.")]).getFieldD "message") = true ∧
    ApiService.handleError
        (.responseErr 400 (Json.jObj [("message", Json.jStr "Invalid credentials.")])) =
      Json.jStr "Invalid credentials." := by
  refine ⟨rfl, rfl, ?_⟩
  have h := C5_handleError_priority 400
    (Json.jObj [("message", Json.jStr "Invalid credentials.")])
  calc ApiService.handleError
        (.responseErr 400 (Json.jObj [("message", Json.jStr "Invalid credentials.")]))
      = (Json.jObj [("message", Json.jStr "Invalid credentials.")]).getFieldD "message" :=
        h.2.1 rfl rfl
    _ = Json.jStr "Invalid credentials." := rfl

/-- C6 counterexample: `getModelRecommendations` is list-returning
(`Promise<any[]>`) yet returns the body directly, so on an envelope body
`{ results: [1, 2] }` it does not return the inner array, contradicting
the claim's quantification over every list-returning API method. -/
theorem C6_counterexample :
    ApiService.getModelRecommendations
        (.ok (Json.jObj [("results", Json.jArr [Json.jNum 1, Json.jNum 2])]))
      ≠ .ok (Json.jArr [Json.jNum 1, Json.jNum 2]) := by
  simp [ApiService.getModelRecommendations]

/-- C6 amended: the envelope-unwrapping list methods (`getCompositions`,
`getTrendingTracks`, and the shared `unwrapResults`) return `[a, b]` both
for the envelope body `{ results: [a, b] }` and for the bare array
`[a, b]`; `getModelRecommendations` alone returns the body unchanged. -/
theorem C6_envelope_unwrapping_amended (xs : List Json) (data : Json) :
    ApiService.unwrapResults (Json.jObj [("results", Json.jArr xs)]) =
      Json.jArr xs ∧
    ApiService.unwrapResults (Json.jArr xs) = Json.jArr xs ∧
    ApiService.getCompositions (.ok (Json.jObj [("results", Json.jArr xs)])) =
      .ok (Json.jArr xs) ∧
    ApiService.getCompositions (.ok (Json.jArr xs)) = .ok (Json.jArr xs) ∧
    ApiService.getTrendingTracks (.ok (Json.jObj [("results", Json.jArr xs)])) =
      .ok (Json.jArr xs) ∧
    ApiService.getTrendingTracks (.ok (Json.jArr xs)) = .ok (Json.jArr xs) ∧
    ApiService.getModelRecommendations (.ok data) = .ok data :=
  ⟨rfl, rfl, rfl, rfl, rfl, rfl, rfl⟩

/-- C7: `toggleRepeat` steps `off → track → queue → off`, so three
successful invocations return the repeat mode to its starting value from
any starting state. -/
theorem C7_toggleRepeat_cycles (st : AudioContext.AudioState) :
    AudioContext.nextRepeatMode .off = .track ∧
    AudioContext.nextRepeatMode .track = .queue ∧
    AudioContext.nextRepeatMode .queue = .off ∧
    (AudioContext.toggleRepeat st true).repeatMode =
      AudioContext.nextRepeatMode st.repeatMode ∧
    (AudioContext.toggleRepeat
        (AudioContext.toggleRepeat
          (AudioContext.toggleRepeat st true) true) true).repeatMode =
      st.repeatMode := by
  refine ⟨rfl, rfl, rfl, rfl, ?_⟩
  rcases st with ⟨ct, ip, pl, sh, rm, q⟩
  cases rm <;> rfl

/-- C8: `toggleShuffle` negates the `shuffle` flag and changes nothing
else: playlist, current track, transport flag, repeat mode and the device
player's queue (the actual playback order) are all untouched. -/
theorem C8_toggleShuffle_frame (st : AudioContext.AudioState) :
    (AudioContext.toggleShuffle st).shuffle = !st.shuffle ∧
    (AudioContext.toggleShuffle st).playlist = st.playlist ∧
    (AudioContext.toggleShuffle st).currentTrack = st.currentTrack ∧
    (AudioContext.toggleShuffle st).isPlaying = st.isPlaying ∧
    (AudioContext.toggleShuffle st).repeatMode = st.repeatMode ∧
    (AudioContext.toggleShuffle st).playerQueue = st.playerQueue :=
  ⟨rfl, rfl, rfl, rfl, rfl, rfl⟩

/-- C10: a successful `setPlaylist` makes the playlist state exactly the
given list; on a non-empty list the current track becomes its head, on the
empty list the current track is left as it was. -/
theorem C10_setPlaylist_success (st : AudioContext.AudioState) (t : Track)
    (ts : List Track) :
    AudioContext.setPlaylist st (t :: ts) .ok =
      { st with playerQueue := t :: ts, playlist := t :: ts,
                currentTrack := some t } ∧
    AudioContext.setPlaylist st [] .ok =
      { st with playerQueue := [], playlist := [] } :=
  ⟨rfl, rfl⟩

/-- C1 counterexample: a login whose credential exchange succeeds but whose
profile fetch then fails is a failed login (it surfaces an error), yet the
prior in-memory and persisted token have already been replaced by the new
token, so the prior session state is not left untouched. -/
theorem C1_counterexample :
    (AuthContext.login
        ⟨some "old-token", some ⟨some 1, some "olduser", none⟩, some "old-token"⟩
        (.ok ⟨"new-token", 7, "alice"⟩)
        (fun _ => .error "profile fetch network failure")).2 =
      .error "profile fetch network failure" ∧
    (AuthContext.login
        ⟨some "old-token", some ⟨some 1, some "olduser", none⟩, some "old-token"⟩
        (.ok ⟨"new-token", 7, "alice"⟩)
        (fun _ => .error "profile fetch network failure")).1 =
      ⟨some "new-token", some ⟨some 1, some "olduser", none⟩, some "new-token"⟩ ∧
    (AuthContext.login
        ⟨some "old-token", some ⟨some 1, some "olduser", none⟩, some "old-token"⟩
        (.ok ⟨"new-token", 7, "alice"⟩)
        (fun _ => .error "profile fetch network failure")).1 ≠
      ⟨some "old-token", some ⟨some 1, some "olduser", none⟩, some "old-token"⟩ := by
  refine ⟨?_, ?_, ?_⟩ <;> simp [AuthContext.login]

/-- C1 amended: when the credential exchange itself fails the prior
session state is untouched and the surfaced error is non-empty; when the
credential exchange succeeds but the profile fetch fails, the error is
still non-empty and the user is untouched, but the in-memory and persisted
token have already been replaced by the newly issued token. -/
theorem C1_login_failure_amended (st : SessionState)
    (pf : String → Except String UserProfile) (msg e : String)
    (lr : LoginResp) (hpf : pf lr.token = .error e) :
    ((AuthContext.login st (.error msg) pf).1 = st ∧
     ∃ m, (AuthContext.login st (.error msg) pf).2 = .error m ∧ m ≠ "") ∧
    ((AuthContext.login st (.ok lr) pf).1.user = st.user ∧
     (AuthContext.login st (.ok lr) pf).1.token = some lr.token ∧
     (AuthContext.login st (.ok lr) pf).1.stored = some lr.token ∧
     ∃ m, (AuthContext.login st (.ok lr) pf).2 = .error m ∧ m ≠ "") := by
  constructor
  · refine ⟨rfl, if msg = "" then "Login failed" else msg, rfl, ?_⟩
    by_cases h : msg = "" <;> simp [h]
  · have hL : AuthContext.login st (.ok lr) pf =
        ({ st with token := some lr.token, stored := some lr.token },
         .error (if e = "" then "Login failed" else e)) := by
      simp [AuthContext.login, hpf]
    rw [hL]
    refine ⟨rfl, rfl, rfl, if e = "" then "Login failed" else e, rfl, ?_⟩
    by_cases h : e = "" <;> simp [h]

/-- Witness for C1 at concrete inputs: an invalid-credentials failure
leaves a populated prior session untouched, and a profile-fetch failure
after a successful credential exchange replaces the in-memory token. -/
theorem C1_login_failure_witness :
    (AuthContext.login
        ⟨some "t0", some ⟨some 1, some "u", none⟩, some "t0"⟩
        (.error "Invalid credentials.") (fun _ => .error "boom")).1 =
      ⟨some "t0", some ⟨some 1, some "u", none⟩, some "t0"⟩ ∧
    (AuthContext.login
        ⟨some "t0", some ⟨some 1, some "u", none⟩, some "t0"⟩
        (.ok ⟨"t1", 7, "alice"⟩) (fun _ => .error "boom")).1.token =
      some "t1" := by
  have h := C1_login_failure_amended
    ⟨some "t0", some ⟨some 1, some "u", none⟩, some "t0"⟩
    (fun _ => .error "boom") "Invalid credentials." "boom"
    ⟨"t1", 7, "alice"⟩ rfl
  exact ⟨h.1.1, h.2.2.1⟩

/-- C3 counterexample: restoring from a persisted token whose profile
fetch fails clears the persisted token and leaves no user, but the
in-memory token — set before the fetch — remains present, so the session
is not token-absent as the claim requires. -/
theorem C3_counterexample :
    AuthContext.loadStoredAuth ⟨none, none, some "stale-token"⟩
        (fun _ => .error "network down") =
      ⟨some "stale-token", none, none⟩ ∧
    (AuthContext.loadStoredAuth ⟨none, none, some "stale-token"⟩
        (fun _ => .error "network down")).token ≠ none := by
  refine ⟨rfl, ?_⟩
  simp [AuthContext.loadStoredAuth]

/-- C3 amended: on a failed profile fetch during restoration the mobile
session manager removes the persisted token and ends with no user (hence
`authenticated = false`), but its in-memory token field retains the stale
persisted token; the web session manager's restore effect does clear the
in-memory token, the user and the persisted token. -/
theorem C3_restore_amended (t : String)
    (pf : String → Except String UserProfile) (e : String)
    (hpf : pf t = .error e) :
    AuthContext.loadStoredAuth ⟨none, none, some t⟩ pf =
      ⟨some t, none, none⟩ ∧
    (AuthContext.loadStoredAuth ⟨none, none, some t⟩ pf).isAuthenticated =
      false ∧
    Auth.restoreEffect ⟨some t, none, some t⟩ pf = ⟨none, none, none⟩ := by
  have hM : AuthContext.loadStoredAuth ⟨none, none, some t⟩ pf =
      ⟨some t, none, none⟩ := by
    simp [AuthContext.loadStoredAuth, hpf]
  have hW : Auth.restoreEffect ⟨some t, none, some t⟩ pf =
      ⟨none, none, none⟩ := by
    simp [Auth.restoreEffect, Auth.logout, hpf]
  refine ⟨hM, ?_, hW⟩
  rw [hM]
  rfl

/-- Witness for C3 at concrete inputs. -/
theorem C3_restore_witness :
    AuthContext.loadStoredAuth ⟨none, none, some "tok"⟩
        (fun _ => .error "bad token") =
      ⟨some "tok", none, none⟩ ∧
    Auth.restoreEffect ⟨some "tok", none, some "tok"⟩
        (fun _ => .error "bad token") =
      ⟨none, none, none⟩ := by
  have h := C3_restore_amended "tok" (fun _ => .error "bad token")
    "bad token" rfl
  exact ⟨h.1, h.2.2⟩

/-- C4 counterexample: when the profile body lacks an `id` field, the
login-time user (built by spreading the profile over
`{ id: user_id, username }`) has `id = 7`, while the restored user (the
raw profile body) has no `id` at all, so the round trip does not
reproduce `user.id`. -/
theorem C4_counterexample :
    (AuthContext.login ⟨none, none, none⟩ (.ok ⟨"tok", 7, "alice"⟩)
        (fun _ => .ok ⟨none, some "alice", none⟩)).1.user.map User.id =
      some (some 7) ∧
    (AuthContext.loadStoredAuth
        ⟨none, none,
          (AuthContext.login ⟨none, none, none⟩ (.ok ⟨"tok", 7, "alice"⟩)
            (fun _ => .ok ⟨none, some "alice", none⟩)).1.stored⟩
        (fun _ => .ok ⟨none, some "alice", none⟩)).user.map User.id =
      some none ∧
    some (some 7) ≠ (some none : Option (Option Nat)) := by
  refine ⟨rfl, rfl, ?_⟩
  simp

/-- C4 amended: provided the profile response body carries `id` and
`username` fields, a successful login followed by persisting the token,
restarting the session and a successful profile fetch reproduces the same
`user.id` and `user.username` (both equal the profile body's values). -/
theorem C4_roundtrip_amended (st : SessionState) (lr : LoginResp)
    (pf : String → Except String UserProfile) (p : UserProfile)
    (i : Nat) (un : String) (hpf : pf lr.token = .ok p)
    (hid : p.id = some i) (hun : p.username = some un) :
    (AuthContext.login st (.ok lr) pf).1.user.map User.id =
      some (some i) ∧
    (AuthContext.login st (.ok lr) pf).1.user.map User.username =
      some (some un) ∧
    (AuthContext.loadStoredAuth
        ⟨none, none, (AuthContext.login st (.ok lr) pf).1.stored⟩
        pf).user.map User.id = some (some i) ∧
    (AuthContext.loadStoredAuth
        ⟨none, none, (AuthContext.login st (.ok lr) pf).1.stored⟩
        pf).user.map User.username = some (some un) := by
  simp only [AuthContext.login, hpf]
  simp [AuthContext.loadStoredAuth, AuthContext.mergeUser,
    AuthContext.profileToUser, hpf, hid, hun]

/-- Witness for C4 at concrete inputs (profile body carrying id 7 and
username alice). -/
theorem C4_roundtrip_witness :
    (AuthContext.login ⟨none, none, none⟩ (.ok ⟨"tok", 7, "alice"⟩)
        (fun _ => .ok ⟨some 7, some "alice", none⟩)).1.user.map User.id =
      some (some 7) ∧
    (AuthContext.loadStoredAuth
        ⟨none, none,
          (AuthContext.login ⟨none, none, none⟩ (.ok ⟨"tok", 7, "alice"⟩)
            (fun _ => .ok ⟨some 7, some "alice", none⟩)).1.stored⟩
        (fun _ => .ok ⟨some 7, some "alice", none⟩)).user.map
      User.username = some (some "alice") := by
  have h := C4_roundtrip_amended ⟨none, none, none⟩ ⟨"tok", 7, "alice"⟩
    (fun _ => .ok ⟨some 7, some "alice", none⟩)
    ⟨some 7, some "alice", none⟩ 7 "alice" rfl rfl rfl
  exact ⟨h.1, h.2.2.2⟩

/-- C9: against a successful response, `handleLikeComposition` keeps the
list's length, bumps `like_count` by exactly one on the entry holding the
liked id (all its other fields kept), and returns every entry with a
different id unchanged. -/
theorem C9_like_increments_exactly_one (comps : List HomeScreen.Composition)
    (cid : Nat) (j : Nat) (hj : j < comps.length)
    (hid : (comps.get ⟨j, hj⟩).id = cid) :
    (HomeScreen.handleLikeComposition comps cid true true).length =
      comps.length ∧
    (∀ hj2 : j < (HomeScreen.handleLikeComposition comps cid true true).length,
      (HomeScreen.handleLikeComposition comps cid true true).get ⟨j, hj2⟩ =
        { comps.get ⟨j, hj⟩ with
            like_count := (comps.get ⟨j, hj⟩).like_count + 1 }) ∧
    (∀ (k : Nat) (hk : k < comps.length), (comps.get ⟨k, hk⟩).id ≠ cid →
      ∀ hk2 : k < (HomeScreen.handleLikeComposition comps cid true true).length,
        (HomeScreen.handleLikeComposition comps cid true true).get ⟨k, hk2⟩ =
          comps.get ⟨k, hk⟩) := by
  refine ⟨by simp [HomeScreen.handleLikeComposition], ?_, ?_⟩
  · intro hj2
    simp only [HomeScreen.handleLikeComposition, Bool.not_true,
      Bool.false_eq_true, if_false, if_true, List.get_eq_getElem,
      List.getElem_map] at *
    simp [hid]
  · intro k hk hkid hk2
    simp only [HomeScreen.handleLikeComposition, Bool.not_true,
      Bool.false_eq_true, if_false, if_true, List.get_eq_getElem,
      List.getElem_map] at *
    simp [hkid]

/-- Witness for C9 at a concrete list: liking id 42 bumps only the first
entry's like count. -/
theorem C9_like_witness :
    (HomeScreen.handleLikeComposition
        [⟨42, "a", "u", 10, 5, 2⟩, ⟨7, "b", "v", 20, 3, 1⟩] 42 true
        true).get ⟨0, by decide⟩ =
      ⟨42, "a", "u", 10, 6, 2⟩ ∧
    (HomeScreen.handleLikeComposition
        [⟨42, "a", "u", 10, 5, 2⟩, ⟨7, "b", "v", 20, 3, 1⟩] 42 true
        true).get ⟨1, by decide⟩ =
      ⟨7, "b", "v", 20, 3, 1⟩ := by
  have h := C9_like_increments_exactly_one
    [⟨42, "a", "u", 10, 5, 2⟩, ⟨7, "b", "v", 20, 3, 1⟩] 42 0
    (by decide) (by decide)
  exact ⟨h.2.1 (by decide), h.2.2 1 (by decide) (by decide) (by decide)⟩
